import Mathlib

/-!
Shallow embedding of the AosUnit protocol message schemas
(`cloud_common/protocols/unit/{desired_status,state,header}.py`).

The source declares pydantic v2 models; decoding a JSON object against a
model validates every declared field (collecting all field errors), resolves
wire aliases, applies defaults for omitted fields, and rejects explicit
`null` for fields whose annotation is not Optional.  We embed parsed JSON as
an inductive `Json`, each model as a structure with a `decode` function, and
pydantic's error-collecting applicative validation as `vApp`.
-/

/-- Parsed JSON values (the input to pydantic model validation). -/
inductive Json where
  | null : Json
  | str : String → Json
  | int : Int → Json
  | bool : Bool → Json
  | arr : List Json → Json
  | obj : List (String × Json) → Json

/-- Look up a key in a JSON object (first occurrence wins). -/
def getField : List (String × Json) → String → Option Json
  | [], _ => none
  | (k, v) :: rest, key => if k = key then some v else getField rest key

/-- A validation result: the value, or the collected field-error messages. -/
abbrev VRes (α : Type) := Except (List String) α

/-- Qualify every error message with the wire field name, as pydantic
reports errors with the field location. -/
def fieldErrors (key : String) : VRes α → VRes α
  | .error es => .error (es.map (fun e => key ++ ": " ++ e))
  | .ok a => .ok a

/-- Error-collecting applicative application: pydantic validates every field
and reports all violations of a decode attempt together. -/
def vApp : VRes (α → β) → VRes α → VRes β
  | .ok f, .ok a => .ok (f a)
  | .ok _, .error e => .error e
  | .error e, .ok _ => .error e
  | .error e1, .error e2 => .error (e1 ++ e2)

/-- A required field: missing is an error; a present value is validated. -/
def reqField (o : List (String × Json)) (key : String) (dec : Json → VRes α) : VRes α :=
  match getField o key with
  | none => .error [key ++ ": missing"]
  | some v => fieldErrors key (dec v)

/-- A field with a default: an omitted field takes the default unvalidated
(pydantic does not validate defaults here); a present value — including an
explicit null — is validated. -/
def optField (o : List (String × Json)) (key : String) (dflt : α) (dec : Json → VRes α) : VRes α :=
  match getField o key with
  | none => .ok dflt
  | some v => fieldErrors key (dec v)

/-- Decode a JSON string. -/
def decStr : Json → VRes String
  | .str s => .ok s
  | _ => .error ["input should be a valid string"]

/-- Decode a JSON integer. -/
def decInt : Json → VRes Int
  | .int n => .ok n
  | _ => .error ["input should be a valid integer"]

/-- Decode the exact string literal `lit` (a pydantic `Literal[str]`). -/
def decStrLit (lit : String) : Json → VRes String
  | .str s => if s = lit then .ok s else .error ["invalid literal"]
  | _ => .error ["invalid literal"]

/-- Decode the exact integer literal `lit` (a pydantic `Literal[int]`). -/
def decIntLit (lit : Int) : Json → VRes Int
  | .int n => if n = lit then .ok n else .error ["invalid literal"]
  | _ => .error ["invalid literal"]

/-- Decode every element of a JSON array. -/
def decListElems (dec : Json → VRes α) : List Json → VRes (List α)
  | [] => .ok []
  | j :: js => vApp (vApp (.ok List.cons) (dec j)) (decListElems dec js)

/-- Decode a JSON array with a minimum length (pydantic `list[...]` with
`min_items` / `min_length`); `null` is not a valid list. -/
def decList (dec : Json → VRes α) (minLen : Nat) : Json → VRes (List α)
  | .arr xs =>
      if xs.length < minLen then .error ["list should have more items"]
      else decListElems dec xs
  | _ => .error ["input should be a valid list"]

/-! ## Base64 (used by `Base64Bytes` fields and the sensitive-bytes wire form) -/

/-- The standard base64 alphabet. -/
def b64Alphabet : List Char :=
  "ABCDEFGHIJKLMNOPQRSTUVWXYZabcdefghijklmnopqrstuvwxyz0123456789+/".toList

/-- The base64 character of a 6-bit value. -/
def b64Char (n : Nat) : Char := b64Alphabet.getD n 'A'

/-- Scan the alphabet for a character, returning its 6-bit value. -/
def b64ValAux : List Char → Nat → Char → Option Nat
  | [], _, _ => none
  | a :: rest, i, c => if a = c then some i else b64ValAux rest (i + 1) c

/-- The 6-bit value of a base64 character. -/
def b64Val (c : Char) : Option Nat := b64ValAux b64Alphabet 0 c

/-- Base64-encode a byte list (`base64.b64encode`), 3 bytes per 4 chars,
padding the final group with `=`. -/
def b64EncodeBytes : List Nat → List Char
  | [] => []
  | [a] => [b64Char (a / 4), b64Char (a % 4 * 16), '=', '=']
  | [a, b] => [b64Char (a / 4), b64Char (a % 4 * 16 + b / 16), b64Char (b % 16 * 4), '=']
  | a :: b :: c :: rest =>
      b64Char (a / 4) :: b64Char (a % 4 * 16 + b / 16) ::
      b64Char (b % 16 * 4 + c / 64) :: b64Char (c % 64) :: b64EncodeBytes rest

/-- Base64-decode a character list back to bytes. -/
def b64DecodeChars : List Char → Option (List Nat)
  | [] => some []
  | c1 :: c2 :: c3 :: c4 :: rest =>
      if c3 = '=' ∧ c4 = '=' ∧ rest = [] then
        match b64Val c1, b64Val c2 with
        | some v1, some v2 => some [v1 * 4 + v2 / 16]
        | _, _ => none
      else if c4 = '=' ∧ rest = [] then
        match b64Val c1, b64Val c2, b64Val c3 with
        | some v1, some v2, some v3 =>
            some [v1 * 4 + v2 / 16, v2 % 16 * 16 + v3 / 4]
        | _, _, _ => none
      else
        match b64Val c1, b64Val c2, b64Val c3, b64Val c4, b64DecodeChars rest with
        | some v1, some v2, some v3, some v4, some tail =>
            some ((v1 * 4 + v2 / 16) :: (v2 % 16 * 16 + v3 / 4) :: (v3 % 4 * 64 + v4) :: tail)
        | _, _, _, _, _ => none
  | _ => none

/-- Decode a pydantic `Base64Bytes` field: base64 text to raw bytes. -/
def decBase64 : Json → VRes (List Nat)
  | .str s =>
      match b64DecodeChars s.toList with
      | some bytes => .ok bytes
      | none => .error ["invalid base64"]
  | _ => .error ["invalid base64"]

theorem b64Val_b64Char : ∀ d : Nat, d < 64 → b64Val (b64Char d) = some d := by decide

theorem b64Char_ne_eq : ∀ d : Nat, d < 64 → b64Char d ≠ '=' := by decide

/-! ## Spec-modelled primitive types (`types.py` is not part of the sources) -/

/-- Modelled from the spec: identifier primitives (`TypeServiceServiceIdMandatory`,
`TypeSubjectSubjectIdMandatory`, `TypeAosSystemIdMandatory`, ...) are
non-empty bounded strings; the spec fixes no concrete bound or alphabet, so
the model checks non-emptiness. -/
def decIdString (j : Json) : VRes String :=
  match decStr j with
  | .ok s => if s.length = 0 then .error ["identifier should be non-empty"] else .ok s
  | .error e => .error e

/-- Modelled from the spec: `TypeInstanceNoMandatory` is an instance number
(a non-negative integer). -/
def decInstanceNo (j : Json) : VRes Int :=
  match decInt j with
  | .ok n => if 0 ≤ n then .ok n else .error ["input should be greater than or equal to 0"]
  | .error e => .error e

/-- Modelled from the spec for the `datetime` annotation of `AosSign.timestamp`:
an RFC3339/ISO8601 timestamp string; the library parser is abstracted as it
decides no claim. -/
def decTimestamp : Json → VRes String
  | .str s => .ok s
  | _ => .error ["input should be a valid datetime"]

/-- Wrap a successful decode in `some` (for fields annotated `T` with
`default=None`: an omitted field becomes `none`, a present value — including
an explicit null — must validate as `T`). -/
def decOptSome (dec : Json → VRes α) (j : Json) : VRes (Option α) :=
  match dec j with
  | .ok a => .ok (some a)
  | .error e => .error e

/-! ## Time of day (pydantic `time` fields of `AosTimeSlot`) -/

def digitVal (c : Char) : Option Nat :=
  if '0' ≤ c ∧ c ≤ '9' then some (c.toNat - 48) else none

def parse2 : List Char → Option (Nat × List Char)
  | c1 :: c2 :: rest =>
      match digitVal c1, digitVal c2 with
      | some d1, some d2 => some (d1 * 10 + d2, rest)
      | _, _ => none
  | _ => none

structure AosTime where
  hour : Nat
  minute : Nat
  second : Nat

/-- Parse a time of day in the form HH:MM or HH:MM:SS — the wire form the
source documents for `AosTimeSlot` fields; the underlying library accepts
further formats, which no claim depends on. -/
def parseTime (s : String) : Option AosTime :=
  match parse2 s.toList with
  | some (h, ':' :: rest) =>
      match parse2 rest with
      | some (m, []) => if h < 24 ∧ m < 60 then some ⟨h, m, 0⟩ else none
      | some (m, ':' :: rest2) =>
          match parse2 rest2 with
          | some (sec, []) =>
              if h < 24 ∧ m < 60 ∧ sec < 60 then some ⟨h, m, sec⟩ else none
          | _ => none
      | _ => none
  | _ => none

def decTime : Json → VRes AosTime
  | .str s =>
      match parseTime s with
      | some t => .ok t
      | none => .error ["input should be a valid time"]
  | _ => .error ["input should be a valid time"]

/-! ## Leaf fragments (desired_status.py) -/

/-- `AosTimeSlot`: timetable time slot.  The source field `end` is a Lean
keyword; it is embedded as `endT`. -/
structure AosTimeSlot where
  start : AosTime
  endT : AosTime

def AosTimeSlot.decode : Json → VRes AosTimeSlot
  | .obj o =>
      vApp (vApp (.ok AosTimeSlot.mk)
        (reqField o "start" decTime))
        (reqField o "end" decTime)
  | _ => .error ["input should be an object"]

/-- `AosTimetableItem`: one timetable entry.  `day_of_week` is declared as a
bare `int` (the source states the meaning Monday 1 .. Sunday 7 only in the
field description); `time_slots` has `min_items=1`. -/
structure AosTimetableItem where
  day_of_week : Int
  time_slots : List AosTimeSlot

def AosTimetableItem.decode : Json → VRes AosTimetableItem
  | .obj o =>
      vApp (vApp (.ok AosTimetableItem.mk)
        (reqField o "dayOfWeek" decInt))
        (reqField o "timeSlots" (decList AosTimeSlot.decode 1))
  | _ => .error ["input should be an object"]

/-- `AosScheduleRule.type`: `Literal['force', 'trigger', 'timetable']`. -/
inductive AosScheduleType where
  | force
  | trigger
  | timetable

def decScheduleType : Json → VRes AosScheduleType
  | .str s =>
      if s = "force" then .ok .force
      else if s = "trigger" then .ok .trigger
      else if s = "timetable" then .ok .timetable
      else .error ["invalid literal"]
  | _ => .error ["invalid literal"]

/-- `AosScheduleRule`: ttl (bare `int`), type literal, timetable list with
`default=None` and no other constraint. -/
structure AosScheduleRule where
  ttl : Int
  type : AosScheduleType
  timetable : Option (List AosTimetableItem)

def AosScheduleRule.decode : Json → VRes AosScheduleRule
  | .obj o =>
      vApp (vApp (vApp (.ok AosScheduleRule.mk)
        (reqField o "ttl" decInt))
        (reqField o "type" decScheduleType))
        (optField o "timetable" none (decOptSome (decList AosTimetableItem.decode 0)))
  | _ => .error ["input should be an object"]

/-- `AosSign.alg`: `Literal['RSA/SHA256', 'EC/SHA256']`. -/
inductive AosSignAlg where
  | rsa_sha256
  | ec_sha256

def decSignAlg : Json → VRes AosSignAlg
  | .str s =>
      if s = "RSA/SHA256" then .ok .rsa_sha256
      else if s = "EC/SHA256" then .ok .ec_sha256
      else .error ["invalid literal"]
  | _ => .error ["invalid literal"]

/-- `AosSign`: signature descriptor. -/
structure AosSign where
  chain_name : String
  alg : AosSignAlg
  value : List Nat
  timestamp : String
  ocsp_values : Option (List Nat)

def AosSign.decode : Json → VRes AosSign
  | .obj o =>
      vApp (vApp (vApp (vApp (vApp (.ok AosSign.mk)
        (reqField o "chainName" decStr))
        (reqField o "alg" decSignAlg))
        (reqField o "value" decBase64))
        (reqField o "trustedTimestamp" decTimestamp))
        (optField o "ocspValues" none (decOptSome decBase64))
  | _ => .error ["input should be an object"]

/-! ## Sensitive bytes and decryption info -/

/-- Modelled from the spec: `AosSensitiveBytes` (declared in `types.py`,
which is not under the sources) is a byte buffer protected from accidental
disclosure, with an explicit reveal accessor. -/
structure AosSensitiveBytes where
  secretBytes : List Nat

def AosSensitiveBytes.get_secret_value (s : AosSensitiveBytes) : List Nat :=
  s.secretBytes

/-- Modelled from the spec: the diagnostic/log rendering of sensitive bytes
is a fixed placeholder that does not depend on the secret value. -/
def AosSensitiveBytes.reprStr (_ : AosSensitiveBytes) : String := "**********"

/-- `AosReceiverInfo`: certificate serial plus issuer DN bytes. -/
structure AosReceiverInfo where
  serial : String
  issuer : List Nat

/-- `AosDecryptionInfo`: block cipher parameters and receiver info. -/
structure AosDecryptionInfo where
  block_alg : String
  block_iv : AosSensitiveBytes
  block_key : AosSensitiveBytes
  asym_alg : String
  receiver_info : AosReceiverInfo

/-- `AosDecryptionInfo.dump_secret`: the JSON-mode field serializer for
`block_key` and `block_iv` — `base64.b64encode(struct_value.get_secret_value())`. -/
def AosDecryptionInfo.dump_secret (struct_value : AosSensitiveBytes) : List Char :=
  b64EncodeBytes struct_value.get_secret_value

/-! ## Desired instance info -/

def decPriorityVal (j : Json) : VRes Int :=
  match decInt j with
  | .ok n =>
      if 0 ≤ n then
        if n < 1000000 then .ok n else .error ["input should be less than 1000000"]
      else .error ["input should be greater than or equal to 0"]
  | .error e => .error e

def decNumInstancesVal (j : Json) : VRes Int :=
  match decInt j with
  | .ok n => if 0 < n then .ok n else .error ["input should be greater than 0"]
  | .error e => .error e

/-- `AosDesiredInstanceInfo`: priority in [0, 1000000), numInstances > 0 with
default 1, optional label list. -/
structure AosDesiredInstanceInfo where
  service_id : String
  subject_id : String
  priority : Int
  num_instances : Int
  labels : Option (List String)

def AosDesiredInstanceInfo.decode : Json → VRes AosDesiredInstanceInfo
  | .obj o =>
      vApp (vApp (vApp (vApp (vApp (.ok AosDesiredInstanceInfo.mk)
        (reqField o "serviceId" decIdString))
        (reqField o "subjectId" decIdString))
        (reqField o "priority" decPriorityVal))
        (optField o "numInstances" 1 decNumInstancesVal))
        (optField o "labels" none (decOptSome (decList decStr 0)))
  | _ => .error ["input should be an object"]

/-! ## Header (header.py) -/

/-- `AosUnitHeader`: `version` is `Literal[6]`, `system_id` an identifier
with wire name `systemId`. -/
structure AosUnitHeader where
  version : Int
  system_id : String

def AosUnitHeader.decode : Json → VRes AosUnitHeader
  | .obj o =>
      vApp (vApp (.ok AosUnitHeader.mk)
        (reqField o "version" (decIntLit 6)))
        (reqField o "systemId" decIdString)
  | _ => .error ["input should be an object"]

/-! ## State messages (state.py) -/

def decChecksum (j : Json) : VRes String :=
  match decStr j with
  | .ok s =>
      if 1 ≤ s.length ∧ s.length ≤ 256 then .ok s
      else .error ["string length out of range"]
  | .error e => .error e

/-- The shared field set of `AosNewState` and `AosUpdateState` (the source
expresses the sharing by inheritance, overriding only the `messageType`
literal). -/
def decStateBody (mk : String → String → String → Int → String → String → α)
    (lit : String) (o : List (String × Json)) : VRes α :=
  vApp (vApp (vApp (vApp (vApp (vApp (.ok mk)
    (reqField o "messageType" (decStrLit lit)))
    (reqField o "serviceId" decIdString))
    (reqField o "subjectId" decIdString))
    (reqField o "instance" decInstanceNo))
    (reqField o "stateChecksum" decChecksum))
    (reqField o "state" decStr)

/-- `AosNewState`: messageType literal `newState`.  The source field
`instance` is a Lean keyword; it is embedded as `instanceNo`. -/
structure AosNewState where
  message_type : String
  service_id : String
  subject_id : String
  instanceNo : Int
  checksum : String
  state : String

def AosNewState.decode : Json → VRes AosNewState
  | .obj o => decStateBody AosNewState.mk "newState" o
  | _ => .error ["input should be an object"]

/-- `AosUpdateState`: same field set as `AosNewState`, messageType literal
`updateState`. -/
structure AosUpdateState where
  message_type : String
  service_id : String
  subject_id : String
  instanceNo : Int
  checksum : String
  state : String

def AosUpdateState.decode : Json → VRes AosUpdateState
  | .obj o => decStateBody AosUpdateState.mk "updateState" o
  | _ => .error ["input should be an object"]

/-! ## desiredStatus message

The composite entity records nested in the payload lists (`AosNodeDesiredState`,
`UnitConfig`, `AosDesiredComponentInfo`, `AosDesiredLayerInfo`,
`AosDesiredServiceInfo`, `AosCertificateInfo`, `AosCertificateChainInfo`)
use primitive types declared in `types.py`/`unit_config.py`, which are not
under the sources; the claims about `AosDesiredStatus` do not depend on
them, so the decoder is parametric in those element decoders and the
theorems quantify over them. -/

structure AosDesiredStatus (N Cfg C L S Cert Ch : Type) where
  message_type : String
  nodes : Option (List N)
  unit_config : Option Cfg
  components : Option (List C)
  layers : Option (List L)
  services : Option (List S)
  instances : Option (List AosDesiredInstanceInfo)
  fota_schedule : Option AosScheduleRule
  sota_schedule : Option AosScheduleRule
  certificates : Option (List Cert)
  certificate_chains : Option (List Ch)

def AosDesiredStatus.decode (dN : Json → VRes N) (dCfg : Json → VRes Cfg)
    (dC : Json → VRes C) (dL : Json → VRes L) (dS : Json → VRes S)
    (dCert : Json → VRes Cert) (dCh : Json → VRes Ch) :
    Json → VRes (AosDesiredStatus N Cfg C L S Cert Ch)
  | .obj o =>
      vApp (vApp (vApp (vApp (vApp (vApp (vApp (vApp (vApp (vApp (vApp (.ok AosDesiredStatus.mk)
        (reqField o "messageType" (decStrLit "desiredStatus")))
        (optField o "nodes" none (decOptSome (decList dN 0))))
        (optField o "unitConfig" none (decOptSome dCfg)))
        (optField o "components" none (decOptSome (decList dC 0))))
        (optField o "layers" none (decOptSome (decList dL 0))))
        (optField o "services" none (decOptSome (decList dS 0))))
        (optField o "instances" none (decOptSome (decList AosDesiredInstanceInfo.decode 0))))
        (optField o "fotaSchedule" none (decOptSome AosScheduleRule.decode)))
        (optField o "sotaSchedule" none (decOptSome AosScheduleRule.decode)))
        (optField o "certificates" none (decOptSome (decList dCert 0))))
        (optField o "certificateChains" none (decOptSome (decList dCh 0)))
  | _ => .error ["input should be an object"]

/-! ## Inversion lemmas for the validation combinators -/

theorem vApp_ok {f : VRes (α → β)} {a : VRes α} {x : β} (h : vApp f a = .ok x) :
    ∃ g y, f = .ok g ∧ a = .ok y ∧ g y = x := by
  cases f with
  | ok g =>
      cases a with
      | ok y => exact ⟨g, y, rfl, rfl, by simpa [vApp] using h⟩
      | error e => simp [vApp] at h
  | error e => cases a <;> simp [vApp] at h

theorem vApp_error_arg {f : VRes (α → β)} {a : VRes α} {e : List String}
    (h : a = .error e) : ∃ es, vApp f a = .error es ∧ ∀ m ∈ e, m ∈ es := by
  subst h
  cases f with
  | ok g => exact ⟨e, rfl, fun m hm => hm⟩
  | error e1 => exact ⟨e1 ++ e, rfl, fun m hm => List.mem_append_right e1 hm⟩

theorem vApp_error_fun {f : VRes (α → β)} {a : VRes α} {e : List String}
    (h : f = .error e) : ∃ es, vApp f a = .error es ∧ ∀ m ∈ e, m ∈ es := by
  subst h
  cases a with
  | ok y => exact ⟨e, rfl, fun m hm => hm⟩
  | error e2 => exact ⟨e ++ e2, rfl, fun m hm => List.mem_append_left e2 hm⟩

theorem fieldErrors_ok {k : String} {r : VRes α} {x : α}
    (h : fieldErrors k r = .ok x) : r = .ok x := by
  cases r with
  | ok a => simpa [fieldErrors] using h
  | error e => simp [fieldErrors] at h

theorem reqField_ok {o : List (String × Json)} {k : String} {dec : Json → VRes α} {x : α}
    (h : reqField o k dec = .ok x) : ∃ v, getField o k = some v ∧ dec v = .ok x := by
  unfold reqField at h
  cases hg : getField o k with
  | none => rw [hg] at h; simp at h
  | some v => rw [hg] at h; exact ⟨v, rfl, fieldErrors_ok h⟩

theorem optField_ok {o : List (String × Json)} {k : String} {dflt : α}
    {dec : Json → VRes α} {x : α} (h : optField o k dflt dec = .ok x) :
    (getField o k = none ∧ x = dflt) ∨ ∃ v, getField o k = some v ∧ dec v = .ok x := by
  unfold optField at h
  cases hg : getField o k with
  | none => rw [hg] at h; exact .inl ⟨rfl, by simpa using h.symm⟩
  | some v => rw [hg] at h; exact .inr ⟨v, rfl, fieldErrors_ok h⟩

theorem reqField_error {o : List (String × Json)} {k : String} {dec : Json → VRes α}
    {v : Json} {e : List String} (hv : getField o k = some v) (hd : dec v = .error e) :
    reqField o k dec = .error (e.map (fun m => k ++ ": " ++ m)) := by
  simp [reqField, hv, hd, fieldErrors]

/-! ## Base64 round-trip -/

theorem b64_roundtrip : ∀ v : List Nat, (∀ b ∈ v, b < 256) →
    b64DecodeChars (b64EncodeBytes v) = some v
  | [], _ => rfl
  | [a], h => by
      have ha : a < 256 := h a (by simp)
      have h1 : a / 4 < 64 := by omega
      have h2 : a % 4 * 16 < 64 := by omega
      simp +decide [b64EncodeBytes, b64DecodeChars,
        b64Val_b64Char _ h1, b64Val_b64Char _ h2]
      omega
  | [a, b], h => by
      have ha : a < 256 := h a (by simp)
      have hb : b < 256 := h b (by simp)
      have h1 : a / 4 < 64 := by omega
      have h2 : a % 4 * 16 + b / 16 < 64 := by omega
      have h3 : b % 16 * 4 < 64 := by omega
      simp +decide [b64EncodeBytes, b64DecodeChars, b64Char_ne_eq _ h3,
        b64Val_b64Char _ h1, b64Val_b64Char _ h2, b64Val_b64Char _ h3]
      omega
  | a :: b :: c :: d :: rest, h => by
      have ha : a < 256 := h a (by simp)
      have hb : b < 256 := h b (by simp)
      have hc : c < 256 := h c (by simp)
      have h1 : a / 4 < 64 := by omega
      have h2 : a % 4 * 16 + b / 16 < 64 := by omega
      have h3 : b % 16 * 4 + c / 64 < 64 := by omega
      have h4 : c % 64 < 64 := by omega
      have ih := b64_roundtrip (d :: rest) (fun x hx => h x (by simp [hx]))
      simp +decide [b64EncodeBytes, b64DecodeChars, b64Char_ne_eq _ h3, b64Char_ne_eq _ h4,
        b64Val_b64Char _ h1, b64Val_b64Char _ h2, b64Val_b64Char _ h3, b64Val_b64Char _ h4,
        ih]
      omega
  | [a, b, c], h => by
      have ha : a < 256 := h a (by simp)
      have hb : b < 256 := h b (by simp)
      have hc : c < 256 := h c (by simp)
      have h1 : a / 4 < 64 := by omega
      have h2 : a % 4 * 16 + b / 16 < 64 := by omega
      have h3 : b % 16 * 4 + c / 64 < 64 := by omega
      have h4 : c % 64 < 64 := by omega
      simp +decide [b64EncodeBytes, b64DecodeChars, b64Char_ne_eq _ h3, b64Char_ne_eq _ h4,
        b64Val_b64Char _ h1, b64Val_b64Char _ h2, b64Val_b64Char _ h3, b64Val_b64Char _ h4]
      omega

/-! ## Error-propagation helpers for decode chains -/

theorem vAppErrFun {f : VRes (α → β)} {a : VRes α} (h : ∃ e, f = .error e) :
    ∃ es, vApp f a = .error es := by
  obtain ⟨e, he⟩ := h
  obtain ⟨es, hes, _⟩ := vApp_error_fun (a := a) he
  exact ⟨es, hes⟩

theorem vAppErrArg {f : VRes (α → β)} {a : VRes α} (h : ∃ e, a = .error e) :
    ∃ es, vApp f a = .error es := by
  obtain ⟨e, he⟩ := h
  obtain ⟨es, hes, _⟩ := vApp_error_arg (f := f) he
  exact ⟨es, hes⟩

theorem vAppErrFunMem {f : VRes (α → β)} {a : VRes α} {m : String}
    (h : ∃ es, f = .error es ∧ m ∈ es) : ∃ es2, vApp f a = .error es2 ∧ m ∈ es2 := by
  obtain ⟨es, he, hm⟩ := h
  obtain ⟨es2, hes2, hsub⟩ := vApp_error_fun (a := a) he
  exact ⟨es2, hes2, hsub m hm⟩

theorem vAppErrArgMem {f : VRes (α → β)} {a : VRes α} {m : String}
    (h : ∃ es, a = .error es ∧ m ∈ es) : ∃ es2, vApp f a = .error es2 ∧ m ∈ es2 := by
  obtain ⟨es, he, hm⟩ := h
  obtain ⟨es2, hes2, hsub⟩ := vApp_error_arg (f := f) he
  exact ⟨es2, hes2, hsub m hm⟩

/-! ## Single-decoder inversion lemmas -/

theorem decIntLit_ok {lit : Int} {j : Json} {x : Int} (h : decIntLit lit j = .ok x) :
    j = .int lit ∧ x = lit := by
  cases j with
  | int n =>
      by_cases hn : n = lit
      · subst hn
        simp [decIntLit] at h
        exact ⟨rfl, by omega⟩
      · simp [decIntLit, hn] at h
  | null => simp [decIntLit] at h
  | str s => simp [decIntLit] at h
  | bool b => simp [decIntLit] at h
  | arr xs => simp [decIntLit] at h
  | obj o => simp [decIntLit] at h

theorem decPriorityVal_ok {j : Json} {n : Int} (h : decPriorityVal j = .ok n) :
    0 ≤ n ∧ n < 1000000 := by
  cases j with
  | int m =>
      simp only [decPriorityVal, decInt] at h
      split at h
      · split at h
        · injection h with h
          subst h
          omega
        · simp at h
      · simp at h
  | null => simp [decPriorityVal, decInt] at h
  | str s => simp [decPriorityVal, decInt] at h
  | bool b => simp [decPriorityVal, decInt] at h
  | arr xs => simp [decPriorityVal, decInt] at h
  | obj o => simp [decPriorityVal, decInt] at h

theorem decNumInstancesVal_ok {j : Json} {n : Int} (h : decNumInstancesVal j = .ok n) :
    0 < n := by
  cases j with
  | int m =>
      simp only [decNumInstancesVal, decInt] at h
      split at h
      · injection h with h
        subst h
        omega
      · simp at h
  | null => simp [decNumInstancesVal, decInt] at h
  | str s => simp [decNumInstancesVal, decInt] at h
  | bool b => simp [decNumInstancesVal, decInt] at h
  | arr xs => simp [decNumInstancesVal, decInt] at h
  | obj o => simp [decNumInstancesVal, decInt] at h

/-- Inverting a successful `AosDesiredInstanceInfo.decode`: the bound-checked
fields come from their validators (or the `numInstances` default). -/
theorem instanceInfo_decode_ok {o : List (String × Json)} {r : AosDesiredInstanceInfo}
    (h : AosDesiredInstanceInfo.decode (Json.obj o) = .ok r) :
    (∃ v, getField o "priority" = some v ∧ decPriorityVal v = .ok r.priority) ∧
    ((getField o "numInstances" = none ∧ r.num_instances = 1) ∨
      ∃ v, getField o "numInstances" = some v ∧ decNumInstancesVal v = .ok r.num_instances) := by
  simp only [AosDesiredInstanceInfo.decode] at h
  obtain ⟨g1, lab, h1, hlab, hmk1⟩ := vApp_ok h
  obtain ⟨g2, ni, h2, hni, hmk2⟩ := vApp_ok h1
  obtain ⟨g3, pr, h3, hpr, hmk3⟩ := vApp_ok h2
  obtain ⟨g4, su, h4, hsu, hmk4⟩ := vApp_ok h3
  obtain ⟨g5, si, h5, hsi, hmk5⟩ := vApp_ok h4
  injection h5 with h5
  subst h5
  subst hmk5
  subst hmk4
  subst hmk3
  subst hmk2
  subst hmk1
  constructor
  · obtain ⟨v, hv, hd⟩ := reqField_ok hpr
    exact ⟨v, hv, hd⟩
  · rcases optField_ok hni with ⟨hnone, hdef⟩ | ⟨v, hv, hd⟩
    · exact .inl ⟨hnone, by simp [hdef]⟩
    · exact .inr ⟨v, hv, hd⟩

/-- Errors of the `messageType` literal of a state-message body abort the
whole decode. -/
theorem decStateBody_error_mt {mk : String → String → String → Int → String → String → α}
    {lit : String} {o : List (String × Json)} {v : Json} {e : List String}
    (hv : getField o "messageType" = some v) (hd : decStrLit lit v = .error e) :
    ∃ es, decStateBody mk lit o = .error es := by
  unfold decStateBody
  exact vAppErrFun (vAppErrFun (vAppErrFun (vAppErrFun (vAppErrFun
    (vAppErrArg ⟨_, reqField_error hv hd⟩)))))

theorem decStrLit_ne {lit s : String} (h : s ≠ lit) :
    decStrLit lit (Json.str s) = .error ["invalid literal"] := by
  simp [decStrLit, h]

/-! ## Claim theorems -/

/-- C10: `AosScheduleRule` places no bound on `ttl`: every integer value,
zero and negative values included, decodes (with otherwise valid fields)
and is stored unchanged. -/
theorem c10_ttl_unbounded (ttl : Int) :
    AosScheduleRule.decode (Json.obj [("ttl", Json.int ttl), ("type", Json.str "force")]) =
      .ok ⟨ttl, AosScheduleType.force, none⟩ := rfl

/-- C4: decoding `AosUnitHeader` succeeds only when the version field is the
integer literal 6 (and the decoded version is 6); a header with version 5 is
a hard decode failure. -/
theorem c4_header_version :
    (∀ (o : List (String × Json)) (hdr : AosUnitHeader),
      AosUnitHeader.decode (Json.obj o) = .ok hdr →
        getField o "version" = some (Json.int 6) ∧ hdr.version = 6) ∧
    (∃ es, AosUnitHeader.decode
      (Json.obj [("version", Json.int 5), ("systemId", Json.str "system1")]) = .error es) := by
  constructor
  · intro o hdr h
    simp only [AosUnitHeader.decode] at h
    obtain ⟨g1, sid, h1, hsid, hmk1⟩ := vApp_ok h
    obtain ⟨g2, ver, h2, hver, hmk2⟩ := vApp_ok h1
    injection h2 with h2
    subst h2
    subst hmk2
    subst hmk1
    obtain ⟨v, hv, hd⟩ := reqField_ok hver
    obtain ⟨hj, hx⟩ := decIntLit_ok hd
    subst hj
    subst hx
    exact ⟨hv, rfl⟩
  · exact ⟨_, rfl⟩

/-- C4 witness: a version-6 header decodes, and the theorem applied to it
reports version 6. -/
theorem c4_witness :
    getField [("version", Json.int 6), ("systemId", Json.str "system1")] "version" =
      some (Json.int 6) ∧ (AosUnitHeader.mk 6 "system1").version = 6 :=
  c4_header_version.1 [("version", Json.int 6), ("systemId", Json.str "system1")]
    (AosUnitHeader.mk 6 "system1") rfl

/-- C3: the `messageType` discriminator separates the two state messages
with identical field sets: a body tagged `newState` never decodes as
`AosUpdateState`, and a body tagged `updateState` never decodes as
`AosNewState`, whatever the remaining fields hold. -/
theorem c3_discriminator (o : List (String × Json)) :
    (getField o "messageType" = some (Json.str "newState") →
      ∃ es, AosUpdateState.decode (Json.obj o) = .error es) ∧
    (getField o "messageType" = some (Json.str "updateState") →
      ∃ es, AosNewState.decode (Json.obj o) = .error es) := by
  constructor
  · intro hv
    simp only [AosUpdateState.decode]
    exact decStateBody_error_mt hv (decStrLit_ne (by decide))
  · intro hv
    simp only [AosNewState.decode]
    exact decStateBody_error_mt hv (decStrLit_ne (by decide))

/-- C3 witness: a concrete body tagged `newState` fails to decode as
`AosUpdateState`. -/
theorem c3_witness :
    ∃ es, AosUpdateState.decode (Json.obj [("messageType", Json.str "newState"),
      ("serviceId", Json.str "srv"), ("subjectId", Json.str "subj"),
      ("instance", Json.int 0), ("stateChecksum", Json.str "abc"),
      ("state", Json.str "")]) = .error es :=
  (c3_discriminator [("messageType", Json.str "newState"),
    ("serviceId", Json.str "srv"), ("subjectId", Json.str "subj"),
    ("instance", Json.int 0), ("stateChecksum", Json.str "abc"),
    ("state", Json.str "")]).1 rfl

/-- C8: `AosSign.alg` accepts only the closed set RSA/SHA256 and EC/SHA256;
any other string makes the whole decode fail with a violation naming the
`alg` field. -/
theorem c8_sign_alg (o : List (String × Json)) (s : String)
    (hv : getField o "alg" = some (Json.str s))
    (h1 : s ≠ "RSA/SHA256") (h2 : s ≠ "EC/SHA256") :
    ∃ es, AosSign.decode (Json.obj o) = .error es ∧ "alg: invalid literal" ∈ es := by
  have hd : decSignAlg (Json.str s) = .error ["invalid literal"] := by
    simp [decSignAlg, h1, h2]
  have ha : reqField o "alg" decSignAlg = .error ["alg: invalid literal"] := by
    rw [reqField_error hv hd]
    rfl
  simp only [AosSign.decode]
  exact vAppErrFunMem (vAppErrFunMem (vAppErrFunMem
    (vAppErrArgMem ⟨_, ha, by simp⟩)))

/-- C8 witness: a sign object with alg RSA/SHA512 fails to decode, with an
error naming the alg field. -/
theorem c8_witness :
    ∃ es, AosSign.decode (Json.obj [("chainName", Json.str "chain1"),
      ("alg", Json.str "RSA/SHA512"), ("value", Json.str ""),
      ("trustedTimestamp", Json.str "2024-01-01T00:00:00Z")]) = .error es ∧
      "alg: invalid literal" ∈ es :=
  c8_sign_alg [("chainName", Json.str "chain1"),
    ("alg", Json.str "RSA/SHA512"), ("value", Json.str ""),
    ("trustedTimestamp", Json.str "2024-01-01T00:00:00Z")]
    "RSA/SHA512" rfl (by decide) (by decide)

/-- C9: the messageType discriminator is the only required field of the
desiredStatus message: the object holding only the discriminator decodes,
every payload field of the result is the no-change default `none` (whatever
decoders handle the nested entity records), and the empty object fails. -/
theorem c9_minimal_desired_status {N Cfg C L S Cert Ch : Type}
    (dN : Json → VRes N) (dCfg : Json → VRes Cfg) (dC : Json → VRes C)
    (dL : Json → VRes L) (dS : Json → VRes S) (dCert : Json → VRes Cert)
    (dCh : Json → VRes Ch) :
    (AosDesiredStatus.decode dN dCfg dC dL dS dCert dCh
      (Json.obj [("messageType", Json.str "desiredStatus")]) =
      .ok ⟨"desiredStatus", none, none, none, none, none, none, none, none, none, none⟩) ∧
    (∃ es, AosDesiredStatus.decode dN dCfg dC dL dS dCert dCh (Json.obj []) = .error es) :=
  ⟨rfl, ⟨_, rfl⟩⟩

/-- C5: `AosDesiredInstanceInfo` bounds — priority 1000000 fails, 999999
succeeds, every decoded priority lies in [0, 1000000); numInstances 0 fails,
every decoded numInstances is positive, and omitting numInstances yields the
default 1. -/
theorem c5_instance_bounds :
    (∃ es, AosDesiredInstanceInfo.decode (Json.obj [("serviceId", Json.str "srv"),
      ("subjectId", Json.str "subj"), ("priority", Json.int 1000000)]) = .error es) ∧
    (AosDesiredInstanceInfo.decode (Json.obj [("serviceId", Json.str "srv"),
      ("subjectId", Json.str "subj"), ("priority", Json.int 999999)]) =
      .ok ⟨"srv", "subj", 999999, 1, none⟩) ∧
    (∀ (o : List (String × Json)) (r : AosDesiredInstanceInfo),
      AosDesiredInstanceInfo.decode (Json.obj o) = .ok r →
        0 ≤ r.priority ∧ r.priority < 1000000) ∧
    (∃ es, AosDesiredInstanceInfo.decode (Json.obj [("serviceId", Json.str "srv"),
      ("subjectId", Json.str "subj"), ("priority", Json.int 0),
      ("numInstances", Json.int 0)]) = .error es) ∧
    (∀ (o : List (String × Json)) (r : AosDesiredInstanceInfo),
      AosDesiredInstanceInfo.decode (Json.obj o) = .ok r → 0 < r.num_instances) ∧
    (∀ (o : List (String × Json)) (r : AosDesiredInstanceInfo),
      getField o "numInstances" = none →
        AosDesiredInstanceInfo.decode (Json.obj o) = .ok r → r.num_instances = 1) := by
  refine ⟨⟨_, rfl⟩, rfl, ?_, ⟨_, rfl⟩, ?_, ?_⟩
  · intro o r h
    obtain ⟨⟨v, hv, hd⟩, -⟩ := instanceInfo_decode_ok h
    exact decPriorityVal_ok hd
  · intro o r h
    rcases (instanceInfo_decode_ok h).2 with ⟨_, hdef⟩ | ⟨v, _, hd⟩
    · omega
    · exact decNumInstancesVal_ok hd
  · intro o r hnone h
    rcases (instanceInfo_decode_ok h).2 with ⟨_, hdef⟩ | ⟨v, hv, _⟩
    · exact hdef
    · rw [hnone] at hv
      exact absurd hv (by simp)

/-- C5 witness: a concrete record with priority 999999 and omitted
numInstances satisfies all three universally quantified bounds. -/
theorem c5_witness :
    (0 ≤ (AosDesiredInstanceInfo.mk "srv" "subj" 999999 1 none).priority ∧
      (AosDesiredInstanceInfo.mk "srv" "subj" 999999 1 none).priority < 1000000) ∧
    0 < (AosDesiredInstanceInfo.mk "srv" "subj" 999999 1 none).num_instances ∧
    (AosDesiredInstanceInfo.mk "srv" "subj" 999999 1 none).num_instances = 1 :=
  ⟨c5_instance_bounds.2.2.1 [("serviceId", Json.str "srv"), ("subjectId", Json.str "subj"),
      ("priority", Json.int 999999)] (AosDesiredInstanceInfo.mk "srv" "subj" 999999 1 none) rfl,
   c5_instance_bounds.2.2.2.2.1 [("serviceId", Json.str "srv"), ("subjectId", Json.str "subj"),
      ("priority", Json.int 999999)] (AosDesiredInstanceInfo.mk "srv" "subj" 999999 1 none) rfl,
   c5_instance_bounds.2.2.2.2.2 [("serviceId", Json.str "srv"), ("subjectId", Json.str "subj"),
      ("priority", Json.int 999999)] (AosDesiredInstanceInfo.mk "srv" "subj" 999999 1 none)
      rfl rfl⟩

/-- The wire string of a schedule-rule type. -/
def AosScheduleType.wire : AosScheduleType → String
  | .force => "force"
  | .trigger => "trigger"
  | .timetable => "timetable"

/-- A concrete valid time slot, 00:00 to 01:30, as wire JSON. -/
def sampleTimeSlotJson : Json :=
  Json.obj [("start", Json.str "00:00"), ("end", Json.str "01:30")]

/-- The decoded form of `sampleTimeSlotJson`. -/
def sampleTimeSlot : AosTimeSlot := ⟨⟨0, 0, 0⟩, ⟨1, 30, 0⟩⟩

/-- A concrete valid timetable item (Monday, one slot) as wire JSON. -/
def sampleTimetableItemJson : Json :=
  Json.obj [("dayOfWeek", Json.int 1), ("timeSlots", Json.arr [sampleTimeSlotJson])]

/-- The decoded form of `sampleTimetableItemJson`. -/
def sampleTimetableItem : AosTimetableItem := ⟨1, [sampleTimeSlot]⟩

/-- C1 counterexample: at concrete inputs the code contradicts three
sub-assertions of the claim (the source declares no conditional validator):
type timetable with an empty timetable list decodes (the claim requires a
failure), type force with a null timetable fails (the claim requires a
success), and type force with a non-empty timetable decodes (the claim
requires a failure). -/
theorem c1_counterexample :
    (AosScheduleRule.decode (Json.obj [("ttl", Json.int 100),
      ("type", Json.str "timetable"), ("timetable", Json.arr [])]) =
      .ok ⟨100, AosScheduleType.timetable, some []⟩) ∧
    (∃ es, AosScheduleRule.decode (Json.obj [("ttl", Json.int 100),
      ("type", Json.str "force"), ("timetable", Json.null)]) = .error es) ∧
    (AosScheduleRule.decode (Json.obj [("ttl", Json.int 100),
      ("type", Json.str "force"), ("timetable", Json.arr [sampleTimetableItemJson])]) =
      .ok ⟨100, AosScheduleType.force, some [sampleTimetableItem]⟩) :=
  ⟨rfl, ⟨_, rfl⟩, rfl⟩

/-- C1 amended: `AosScheduleRule` enforces no conditional timetable rule.
For every type in the enum, an empty timetable list decodes, an omitted
timetable decodes to none, and a non-empty timetable also decodes when the
type is force; an explicitly null timetable fails for every type (the
annotation is a plain list with default None). -/
theorem c1_no_conditional_rule :
    (∀ ty : AosScheduleType,
      AosScheduleRule.decode (Json.obj [("ttl", Json.int 0),
        ("type", Json.str ty.wire), ("timetable", Json.arr [])]) =
        .ok ⟨0, ty, some []⟩) ∧
    (∀ ty : AosScheduleType,
      AosScheduleRule.decode (Json.obj [("ttl", Json.int 0), ("type", Json.str ty.wire)]) =
        .ok ⟨0, ty, none⟩) ∧
    (∀ ty : AosScheduleType,
      ∃ es, AosScheduleRule.decode (Json.obj [("ttl", Json.int 0),
        ("type", Json.str ty.wire), ("timetable", Json.null)]) = .error es) ∧
    (AosScheduleRule.decode (Json.obj [("ttl", Json.int 0), ("type", Json.str "force"),
      ("timetable", Json.arr [sampleTimetableItemJson])]) =
      .ok ⟨0, AosScheduleType.force, some [sampleTimetableItem]⟩) := by
  refine ⟨fun ty => ?_, fun ty => ?_, fun ty => ?_, rfl⟩
  · cases ty <;> rfl
  · cases ty <;> rfl
  · cases ty <;> exact ⟨_, rfl⟩

/-- C6 counterexample: the claim requires any dayOfWeek outside 1..7 to fail
decoding; the code decodes dayOfWeek 8 successfully (the source declares
`day_of_week` as a bare int, the 1..7 range appears only in its
description). -/
theorem c6_counterexample :
    AosTimetableItem.decode (Json.obj [("dayOfWeek", Json.int 8),
      ("timeSlots", Json.arr [sampleTimeSlotJson])]) = .ok ⟨8, [sampleTimeSlot]⟩ := rfl

/-- C6 amended: `AosTimetableItem` decodes every integer dayOfWeek unchanged
(no 1..7 bound is enforced), while an empty timeSlots list does fail to
decode (min_items 1). -/
theorem c6_timetable_item :
    (∀ d : Int, AosTimetableItem.decode (Json.obj [("dayOfWeek", Json.int d),
      ("timeSlots", Json.arr [sampleTimeSlotJson])]) = .ok ⟨d, [sampleTimeSlot]⟩) ∧
    (∃ es, AosTimetableItem.decode (Json.obj [("dayOfWeek", Json.int 1),
      ("timeSlots", Json.arr [])]) = .error es) :=
  ⟨fun _ => rfl, ⟨_, rfl⟩⟩

/-- C2: actual behavior of the desiredStatus list fields, for any nested
entity decoders.  An omitted field decodes to the no-change value none and
an empty list decodes to some [] (clear category), as the claim states; but
an explicitly null field is a decode error (the annotations are plain lists
with default None, so null is not accepted), contradicting the claim and
the source's own field descriptions, which say absent or null means do
nothing. -/
theorem c2_null_vs_empty {N Cfg C L S Cert Ch : Type}
    (dN : Json → VRes N) (dCfg : Json → VRes Cfg) (dC : Json → VRes C)
    (dL : Json → VRes L) (dS : Json → VRes S) (dCert : Json → VRes Cert)
    (dCh : Json → VRes Ch) :
    (AosDesiredStatus.decode dN dCfg dC dL dS dCert dCh
      (Json.obj [("messageType", Json.str "desiredStatus")]) =
      .ok ⟨"desiredStatus", none, none, none, none, none, none, none, none, none, none⟩) ∧
    (∃ es, AosDesiredStatus.decode dN dCfg dC dL dS dCert dCh
      (Json.obj [("messageType", Json.str "desiredStatus"), ("nodes", Json.null)]) = .error es) ∧
    (AosDesiredStatus.decode dN dCfg dC dL dS dCert dCh
      (Json.obj [("messageType", Json.str "desiredStatus"), ("nodes", Json.arr [])]) =
      .ok ⟨"desiredStatus", some [], none, none, none, none, none, none, none, none, none⟩) ∧
    (∃ es, AosDesiredStatus.decode dN dCfg dC dL dS dCert dCh
      (Json.obj [("messageType", Json.str "desiredStatus"), ("components", Json.null)]) = .error es) ∧
    (AosDesiredStatus.decode dN dCfg dC dL dS dCert dCh
      (Json.obj [("messageType", Json.str "desiredStatus"), ("components", Json.arr [])]) =
      .ok ⟨"desiredStatus", none, none, some [], none, none, none, none, none, none, none⟩) ∧
    (∃ es, AosDesiredStatus.decode dN dCfg dC dL dS dCert dCh
      (Json.obj [("messageType", Json.str "desiredStatus"), ("layers", Json.null)]) = .error es) ∧
    (AosDesiredStatus.decode dN dCfg dC dL dS dCert dCh
      (Json.obj [("messageType", Json.str "desiredStatus"), ("layers", Json.arr [])]) =
      .ok ⟨"desiredStatus", none, none, none, some [], none, none, none, none, none, none⟩) ∧
    (∃ es, AosDesiredStatus.decode dN dCfg dC dL dS dCert dCh
      (Json.obj [("messageType", Json.str "desiredStatus"), ("services", Json.null)]) = .error es) ∧
    (AosDesiredStatus.decode dN dCfg dC dL dS dCert dCh
      (Json.obj [("messageType", Json.str "desiredStatus"), ("services", Json.arr [])]) =
      .ok ⟨"desiredStatus", none, none, none, none, some [], none, none, none, none, none⟩) ∧
    (∃ es, AosDesiredStatus.decode dN dCfg dC dL dS dCert dCh
      (Json.obj [("messageType", Json.str "desiredStatus"), ("instances", Json.null)]) = .error es) ∧
    (AosDesiredStatus.decode dN dCfg dC dL dS dCert dCh
      (Json.obj [("messageType", Json.str "desiredStatus"), ("instances", Json.arr [])]) =
      .ok ⟨"desiredStatus", none, none, none, none, none, some [], none, none, none, none⟩) ∧
    (∃ es, AosDesiredStatus.decode dN dCfg dC dL dS dCert dCh
      (Json.obj [("messageType", Json.str "desiredStatus"), ("certificates", Json.null)]) = .error es) ∧
    (AosDesiredStatus.decode dN dCfg dC dL dS dCert dCh
      (Json.obj [("messageType", Json.str "desiredStatus"), ("certificates", Json.arr [])]) =
      .ok ⟨"desiredStatus", none, none, none, none, none, none, none, none, some [], none⟩) ∧
    (∃ es, AosDesiredStatus.decode dN dCfg dC dL dS dCert dCh
      (Json.obj [("messageType", Json.str "desiredStatus"), ("certificateChains", Json.null)]) = .error es) ∧
    (AosDesiredStatus.decode dN dCfg dC dL dS dCert dCh
      (Json.obj [("messageType", Json.str "desiredStatus"), ("certificateChains", Json.arr [])]) =
      .ok ⟨"desiredStatus", none, none, none, none, none, none, none, none, none, some []⟩) :=
  ⟨rfl, ⟨_, rfl⟩, rfl, ⟨_, rfl⟩, rfl, ⟨_, rfl⟩, rfl, ⟨_, rfl⟩, rfl,
   ⟨_, rfl⟩, rfl, ⟨_, rfl⟩, rfl, ⟨_, rfl⟩, rfl⟩

/-- C7: the JSON-mode serialization of block_key and block_iv is base64 text
that decodes back to exactly the original secret bytes, and the diagnostic
rendering of sensitive bytes is a fixed placeholder — the same for every
secret value, so it never contains the key bytes. -/
theorem c7_sensitive_roundtrip (d : AosDecryptionInfo)
    (hk : ∀ b ∈ d.block_key.secretBytes, b < 256)
    (hi : ∀ b ∈ d.block_iv.secretBytes, b < 256) :
    b64DecodeChars (AosDecryptionInfo.dump_secret d.block_key) =
      some d.block_key.get_secret_value ∧
    b64DecodeChars (AosDecryptionInfo.dump_secret d.block_iv) =
      some d.block_iv.get_secret_value ∧
    (∀ v : AosSensitiveBytes, AosSensitiveBytes.reprStr d.block_key =
      AosSensitiveBytes.reprStr v) :=
  ⟨b64_roundtrip _ hk, b64_roundtrip _ hi, fun _ => rfl⟩

/-- C7 witness: a concrete decryption info whose key and iv round-trip
through the wire serializer. -/
theorem c7_witness :
    b64DecodeChars (AosDecryptionInfo.dump_secret
      (AosSensitiveBytes.mk [0, 1, 254, 255])) = some [0, 1, 254, 255] ∧
    b64DecodeChars (AosDecryptionInfo.dump_secret
      (AosSensitiveBytes.mk [16, 32, 48])) = some [16, 32, 48] :=
  have h := c7_sensitive_roundtrip
    (AosDecryptionInfo.mk "AES256/CBC/pkcs7" (AosSensitiveBytes.mk [16, 32, 48])
      (AosSensitiveBytes.mk [0, 1, 254, 255]) "RSA/PKCS1v1_5"
      (AosReceiverInfo.mk "serial1" []))
    (by decide) (by decide)
  ⟨h.1, h.2.1⟩
